import Mathlib

/-!
Shallow embedding of the Amazon deforestation simulation engine
(`simulate_v03` and `first_crossing_year` from `src/app.py`, the most
general of the three engine variants) over exact rationals.

Python floats are modelled as `ℚ`; the step arithmetic, the `min`/`max`
clamps, the El Niño year set, and the trajectory accumulation mirror the
source line by line.
-/

namespace Amazon

/-- The configuration: exactly the parameters of `simulate_v03` in `src/app.py`. -/
structure Config where
  start_year : Int
  horizon : Nat
  F0_intact : ℚ
  F0_degraded : ℚ
  D_base : ℚ
  post_accord_on : Bool
  post_accord_start : Int
  post_accord_mult : ℚ
  enforcement_factor : ℚ
  fire_base : ℚ
  climate_stress : ℚ
  alpha_vuln : ℚ
  elnino_on : Bool
  elnino_mult : ℚ
  rho_recovery : ℚ
  w_degraded_target : ℚ

/-- The El Niño year set of `src/app.py`: 2015, 2016, 2023, 2024. -/
def ELNINO_YEARS : List Int := [2015, 2016, 2023, 2024]

/-- Effective human demand `D_human = (D_base * enforcement_factor) * (1.0 + post_mult)` where
`post_mult = post_accord_mult if (post_accord_on and y >= post_accord_start) else 0.0`. -/
def D_humanOf (cfg : Config) (y : Int) : ℚ :=
  let post_mult := if cfg.post_accord_on ∧ cfg.post_accord_start ≤ y then cfg.post_accord_mult else 0
  (cfg.D_base * cfg.enforcement_factor) * (1 + post_mult)

/-- Conversion drawn from degraded land: `convert_deg = min(F_deg, D_human * w_degraded_target)`. -/
def convertDeg (cfg : Config) (y : Int) (F_deg : ℚ) : ℚ :=
  min F_deg (D_humanOf cfg y * cfg.w_degraded_target)

/-- Conversion drawn from intact land: `remaining = D_human - convert_deg; convert_int = min(F_int, max(remaining, 0.0))`. -/
def convertInt (cfg : Config) (y : Int) (F_int F_deg : ℚ) : ℚ :=
  min F_int (max (D_humanOf cfg y - convertDeg cfg y F_deg) 0)

/-- Fire pressure: `(fire_base * climate_stress) * vuln_factor * (1.0 + eln)` with
`vuln_factor = 1.0 + alpha_vuln * (F_deg / max(F_int + F_deg, 1.0))` and the El Niño
bonus applied only in `ELNINO_YEARS` when `elnino_on`. -/
def firePressure (cfg : Config) (y : Int) (F_int F_deg : ℚ) : ℚ :=
  let F_tot := max (F_int + F_deg) 1
  let deg_share := F_deg / F_tot
  let vuln_factor := 1 + cfg.alpha_vuln * deg_share
  let eln := if cfg.elnino_on ∧ y ∈ ELNINO_YEARS then cfg.elnino_mult else 0
  (cfg.fire_base * cfg.climate_stress) * vuln_factor * (1 + eln)

/-- Degrade flow: `degrade = min(F_int - convert_int, max(fire_pressure, 0.0)); degrade = max(degrade, 0.0)`. -/
def degradeOf (cfg : Config) (y : Int) (F_int F_deg : ℚ) : ℚ :=
  max (min (F_int - convertInt cfg y F_int F_deg) (max (firePressure cfg y F_int F_deg) 0)) 0

/-- Recovery flow: `recover = min(F_deg - convert_deg, rho_recovery * F_deg); recover = max(recover, 0.0)`. -/
def recoverOf (cfg : Config) (y : Int) (F_deg : ℚ) : ℚ :=
  max (min (F_deg - convertDeg cfg y F_deg) (cfg.rho_recovery * F_deg)) 0

/-- Unclamped `next_int = F_int - convert_int - degrade + recover`. -/
def nextIntRaw (cfg : Config) (y : Int) (F_int F_deg : ℚ) : ℚ :=
  F_int - convertInt cfg y F_int F_deg - degradeOf cfg y F_int F_deg + recoverOf cfg y F_deg

/-- Unclamped `next_deg = F_deg - convert_deg + degrade - recover`. -/
def nextDegRaw (cfg : Config) (y : Int) (F_int F_deg : ℚ) : ℚ :=
  F_deg - convertDeg cfg y F_deg + degradeOf cfg y F_int F_deg - recoverOf cfg y F_deg

/-- One loop iteration of `simulate_v03`: from current stocks it produces the
clamped values appended to the `intact`, `degraded` and `total` lists:
`(max(next_int, 0), max(next_deg, 0), max(next_int + next_deg, 0))`. -/
def stepV03 (cfg : Config) (y : Int) (F_int F_deg : ℚ) : ℚ × ℚ × ℚ :=
  (max (nextIntRaw cfg y F_int F_deg) 0,
   max (nextDegRaw cfg y F_int F_deg) 0,
   max (nextIntRaw cfg y F_int F_deg + nextDegRaw cfg y F_int F_deg) 0)

/-- The state after `t` loop iterations: `(intact[t], degraded[t], total[t])`.
Step `t+1` uses year `years[t] = start_year + t` and reads the previous
clamped stocks, exactly as the loop reads `intact[-1]`, `degraded[-1]`. -/
def stateAt (cfg : Config) : Nat → ℚ × ℚ × ℚ
  | 0 => (cfg.F0_intact, cfg.F0_degraded, cfg.F0_intact + cfg.F0_degraded)
  | t + 1 =>
      let s := stateAt cfg t
      stepV03 cfg (cfg.start_year + t) s.1 s.2.1

/-- Entry `intact[t]` of the trajectory. -/
def intactAt (cfg : Config) (t : Nat) : ℚ := (stateAt cfg t).1

/-- Entry `degraded[t]` of the trajectory. -/
def degradedAt (cfg : Config) (t : Nat) : ℚ := (stateAt cfg t).2.1

/-- Entry `total[t]` of the trajectory. -/
def totalAt (cfg : Config) (t : Nat) : ℚ := (stateAt cfg t).2.2

/-- The year list `years = [start_year + t for t in range(horizon + 1)]`. -/
def yearsOf (cfg : Config) : List Int :=
  (List.range (cfg.horizon + 1)).map (fun (t : Nat) => cfg.start_year + (t : Int))

/-- The `intact` series returned by `simulate_v03` (length `horizon + 1`). -/
def intactSeries (cfg : Config) : List ℚ :=
  (List.range (cfg.horizon + 1)).map (intactAt cfg)

/-- The `degraded` series returned by `simulate_v03` (length `horizon + 1`). -/
def degradedSeries (cfg : Config) : List ℚ :=
  (List.range (cfg.horizon + 1)).map (degradedAt cfg)

/-- The `total` series returned by `simulate_v03` (length `horizon + 1`). -/
def totalSeries (cfg : Config) : List ℚ :=
  (List.range (cfg.horizon + 1)).map (totalAt cfg)

/-- The full return value `simulate_v03(...) -> (years, intact, degraded, total)`. -/
def simulateV03 (cfg : Config) : List Int × List ℚ × List ℚ × List ℚ :=
  (yearsOf cfg, intactSeries cfg, degradedSeries cfg, totalSeries cfg)

/-- The scan `first_crossing_year`: walk `zip(years, series)` in order, return the first
year whose value is `<= threshold_value`, else `None`. -/
def firstCrossingYear : List Int → List ℚ → ℚ → Option Int
  | y :: ys, v :: vs, thr => if v ≤ thr then some y else firstCrossingYear ys vs thr
  | _, _, _ => none

/-- Closed-form `crossing_year` from `src/src/simulation_v0_1.py`:
`start_year + max(ceil((F0 - frac_remaining * F0) / D), 0)`. -/
def crossingYear (start_year : Int) (F0 D frac_remaining : ℚ) : Int :=
  start_year + max ⌈(F0 - frac_remaining * F0) / D⌉ 0

/-! ### Concrete configurations used in the scenario checks -/

/-- The spec's first concrete scenario, with the dashboard defaults for the
remaining knobs (start 2000, horizon 200, `w = 0.20`). -/
def cfgC7 : Config :=
  { start_year := 2000, horizon := 200, F0_intact := 39011117, F0_degraded := 0,
    D_base := 81240, post_accord_on := false, post_accord_start := 2017,
    post_accord_mult := 3/10, enforcement_factor := 1, fire_base := 0,
    climate_stress := 1, alpha_vuln := 2, elnino_on := true, elnino_mult := 1/5,
    rho_recovery := 0, w_degraded_target := 1/5 }

/-- The same scenario truncated to a 2-step horizon. -/
def cfgC3 : Config :=
  { cfgC7 with horizon := 2 }

/-- A configuration violating the documented ranges: `rho_recovery = 2` is
outside `[0, 1)`. -/
def cfgBadRho : Config :=
  { start_year := 2000, horizon := 1, F0_intact := 100, F0_degraded := 100,
    D_base := 0, post_accord_on := false, post_accord_start := 2017,
    post_accord_mult := 0, enforcement_factor := 1, fire_base := 0,
    climate_stress := 1, alpha_vuln := 2, elnino_on := false, elnino_mult := 0,
    rho_recovery := 2, w_degraded_target := 1/5 }

/-- A small well-formed configuration with positive recovery. -/
def cfgSmall : Config :=
  { start_year := 2000, horizon := 2, F0_intact := 100, F0_degraded := 50,
    D_base := 30, post_accord_on := false, post_accord_start := 2017,
    post_accord_mult := 0, enforcement_factor := 1, fire_base := 10,
    climate_stress := 1, alpha_vuln := 2, elnino_on := false, elnino_mult := 0,
    rho_recovery := 1/100, w_degraded_target := 1/5 }

/-- A one-step configuration crossing a 75% threshold at step 1. -/
def cfgScan : Config :=
  { start_year := 2000, horizon := 1, F0_intact := 100, F0_degraded := 0,
    D_base := 30, post_accord_on := false, post_accord_start := 2017,
    post_accord_mult := 0, enforcement_factor := 1, fire_base := 0,
    climate_stress := 1, alpha_vuln := 2, elnino_on := false, elnino_mult := 0,
    rho_recovery := 0, w_degraded_target := 0 }

/-- A configuration that targets degraded land exclusively (`w = 1`). -/
def cfgPriority : Config :=
  { start_year := 2000, horizon := 3, F0_intact := 5, F0_degraded := 10,
    D_base := 10, post_accord_on := false, post_accord_start := 2017,
    post_accord_mult := 0, enforcement_factor := 1, fire_base := 0,
    climate_stress := 1, alpha_vuln := 2, elnino_on := false, elnino_mult := 0,
    rho_recovery := 0, w_degraded_target := 1 }

/-- A configuration with all three flows switched off. -/
def cfgZero : Config :=
  { start_year := 2000, horizon := 5, F0_intact := 7, F0_degraded := 3,
    D_base := 0, post_accord_on := true, post_accord_start := 2017,
    post_accord_mult := 3/10, enforcement_factor := 1, fire_base := 0,
    climate_stress := 1, alpha_vuln := 2, elnino_on := true, elnino_mult := 1/5,
    rho_recovery := 0, w_degraded_target := 1/5 }

/-! ### Step-level facts -/

lemma convertDeg_le_self (cfg : Config) (y : Int) (F_deg : ℚ) :
    convertDeg cfg y F_deg ≤ F_deg :=
  min_le_left _ _

lemma convertDeg_nonneg (cfg : Config) (y : Int) (F_deg : ℚ)
    (hd : 0 ≤ F_deg) (hw : 0 ≤ D_humanOf cfg y * cfg.w_degraded_target) :
    0 ≤ convertDeg cfg y F_deg :=
  le_min hd hw

lemma convertInt_le_self (cfg : Config) (y : Int) (F_int F_deg : ℚ) :
    convertInt cfg y F_int F_deg ≤ F_int :=
  min_le_left _ _

lemma convertInt_nonneg (cfg : Config) (y : Int) (F_int F_deg : ℚ) (hi : 0 ≤ F_int) :
    0 ≤ convertInt cfg y F_int F_deg :=
  le_min hi (le_max_right _ _)

lemma degradeOf_nonneg (cfg : Config) (y : Int) (F_int F_deg : ℚ) :
    0 ≤ degradeOf cfg y F_int F_deg :=
  le_max_right _ _

lemma degradeOf_le (cfg : Config) (y : Int) (F_int F_deg : ℚ) :
    degradeOf cfg y F_int F_deg ≤ F_int - convertInt cfg y F_int F_deg :=
  max_le (min_le_left _ _) (sub_nonneg.mpr (convertInt_le_self cfg y F_int F_deg))

lemma recoverOf_nonneg (cfg : Config) (y : Int) (F_deg : ℚ) :
    0 ≤ recoverOf cfg y F_deg :=
  le_max_right _ _

lemma recoverOf_le (cfg : Config) (y : Int) (F_deg : ℚ) :
    recoverOf cfg y F_deg ≤ F_deg - convertDeg cfg y F_deg :=
  max_le (min_le_left _ _) (sub_nonneg.mpr (convertDeg_le_self cfg y F_deg))

/-- The unclamped `next_int` is non-negative: conversion and degradation can
never withdraw more than the intact stock holds, and recovery only adds. -/
lemma nextIntRaw_nonneg (cfg : Config) (y : Int) (F_int F_deg : ℚ) :
    0 ≤ nextIntRaw cfg y F_int F_deg := by
  have h1 := degradeOf_le cfg y F_int F_deg
  have h2 := recoverOf_nonneg cfg y F_deg
  unfold nextIntRaw
  linarith

/-- The unclamped `next_deg` is non-negative: conversion and recovery can never
withdraw more than the degraded stock holds, and degradation only adds. -/
lemma nextDegRaw_nonneg (cfg : Config) (y : Int) (F_int F_deg : ℚ) :
    0 ≤ nextDegRaw cfg y F_int F_deg := by
  have h1 := recoverOf_le cfg y F_deg
  have h2 := degradeOf_nonneg cfg y F_int F_deg
  unfold nextDegRaw
  linarith

/-- The `max(·, 0)` clamps on the next state never engage. -/
lemma stepV03_eq (cfg : Config) (y : Int) (F_int F_deg : ℚ) :
    stepV03 cfg y F_int F_deg =
      (nextIntRaw cfg y F_int F_deg, nextDegRaw cfg y F_int F_deg,
       nextIntRaw cfg y F_int F_deg + nextDegRaw cfg y F_int F_deg) := by
  unfold stepV03
  rw [max_eq_left (nextIntRaw_nonneg cfg y F_int F_deg),
      max_eq_left (nextDegRaw_nonneg cfg y F_int F_deg),
      max_eq_left (add_nonneg (nextIntRaw_nonneg cfg y F_int F_deg)
        (nextDegRaw_nonneg cfg y F_int F_deg))]

/-! ### Trajectory-level facts -/

lemma stateAt_succ (cfg : Config) (t : Nat) :
    stateAt cfg (t + 1) =
      stepV03 cfg (cfg.start_year + t) (intactAt cfg t) (degradedAt cfg t) :=
  rfl

lemma intactAt_succ (cfg : Config) (t : Nat) :
    intactAt cfg (t + 1) =
      nextIntRaw cfg (cfg.start_year + t) (intactAt cfg t) (degradedAt cfg t) := by
  rw [intactAt, stateAt_succ, stepV03_eq]

lemma degradedAt_succ (cfg : Config) (t : Nat) :
    degradedAt cfg (t + 1) =
      nextDegRaw cfg (cfg.start_year + t) (intactAt cfg t) (degradedAt cfg t) := by
  rw [degradedAt, stateAt_succ, stepV03_eq]

lemma totalAt_succ (cfg : Config) (t : Nat) :
    totalAt cfg (t + 1) =
      nextIntRaw cfg (cfg.start_year + t) (intactAt cfg t) (degradedAt cfg t) +
        nextDegRaw cfg (cfg.start_year + t) (intactAt cfg t) (degradedAt cfg t) := by
  rw [totalAt, stateAt_succ, stepV03_eq]

/-- The recorded total always equals the sum of the recorded stocks. -/
lemma totalAt_eq (cfg : Config) : ∀ t, totalAt cfg t = intactAt cfg t + degradedAt cfg t
  | 0 => rfl
  | t + 1 => by rw [totalAt_succ, intactAt_succ, degradedAt_succ]

lemma intactAt_nonneg (cfg : Config) (h : 0 ≤ cfg.F0_intact) : ∀ t, 0 ≤ intactAt cfg t
  | 0 => h
  | t + 1 => by rw [intactAt_succ]; exact nextIntRaw_nonneg _ _ _ _

lemma degradedAt_nonneg (cfg : Config) (h : 0 ≤ cfg.F0_degraded) :
    ∀ t, 0 ≤ degradedAt cfg t
  | 0 => h
  | t + 1 => by rw [degradedAt_succ]; exact nextDegRaw_nonneg _ _ _ _

lemma D_human_w_nonneg (cfg : Config) (hD : 0 ≤ cfg.D_base)
    (hE : 0 ≤ cfg.enforcement_factor) (hP : 0 ≤ cfg.post_accord_mult)
    (hw : 0 ≤ cfg.w_degraded_target) (y : Int) :
    0 ≤ D_humanOf cfg y * cfg.w_degraded_target := by
  refine mul_nonneg (mul_nonneg (mul_nonneg hD hE) ?_) hw
  dsimp only [D_humanOf]
  split <;> linarith

/-- One step can only shrink the recorded total: the degrade and recover flows
cancel in the sum, leaving total minus the two (non-negative) conversions. -/
lemma totalAt_succ_le (cfg : Config) (hFi : 0 ≤ cfg.F0_intact)
    (hFd : 0 ≤ cfg.F0_degraded)
    (hDw : ∀ y, 0 ≤ D_humanOf cfg y * cfg.w_degraded_target) (t : Nat) :
    totalAt cfg (t + 1) ≤ totalAt cfg t := by
  rw [totalAt_succ, totalAt_eq]
  have h1 : nextIntRaw cfg (cfg.start_year + t) (intactAt cfg t) (degradedAt cfg t) +
      nextDegRaw cfg (cfg.start_year + t) (intactAt cfg t) (degradedAt cfg t) =
      intactAt cfg t + degradedAt cfg t -
        convertInt cfg (cfg.start_year + t) (intactAt cfg t) (degradedAt cfg t) -
        convertDeg cfg (cfg.start_year + t) (degradedAt cfg t) := by
    unfold nextIntRaw nextDegRaw
    ring
  have h2 := convertInt_nonneg cfg (cfg.start_year + t) (intactAt cfg t)
    (degradedAt cfg t) (intactAt_nonneg cfg hFi t)
  have h3 := convertDeg_nonneg cfg (cfg.start_year + t) (degradedAt cfg t)
    (degradedAt_nonneg cfg hFd t) (hDw _)
  linarith

/-! ### The threshold scan -/

/-- The scan returns the not-crossed sentinel exactly when no scanned value is
at or below the threshold. -/
lemma fcy_eq_none_iff : ∀ (ys : List Int) (vs : List ℚ) (thr : ℚ),
    firstCrossingYear ys vs thr = none ↔
      ∀ i (hy : i < ys.length) (hv : i < vs.length), thr < vs.get ⟨i, hv⟩
  | [], vs, thr =>
      ⟨fun _ i hy _ => absurd hy (Nat.not_lt_zero i), fun _ => rfl⟩
  | _ :: _, [], thr =>
      ⟨fun _ i _ hv => absurd hv (Nat.not_lt_zero i), fun _ => rfl⟩
  | y :: ys, v :: vs, thr => by
      by_cases h : v ≤ thr
      · simp only [firstCrossingYear, if_pos h]
        constructor
        · intro hc; exact absurd hc (by simp)
        · intro hall
          have h0 := hall 0 (Nat.succ_pos _) (Nat.succ_pos _)
          exact absurd h (not_le.mpr h0)
      · simp only [firstCrossingYear, if_neg h]
        rw [fcy_eq_none_iff ys vs thr]
        constructor
        · intro hall i hy hv
          match i, hy, hv with
          | 0, _, _ => exact lt_of_not_le h
          | i + 1, hy, hv =>
              exact hall i (Nat.lt_of_succ_lt_succ hy) (Nat.lt_of_succ_lt_succ hv)
        · intro hall i hy hv
          exact hall (i + 1) (Nat.succ_lt_succ hy) (Nat.succ_lt_succ hv)

/-- The scan is a chronological first-match scan: if index `i` is at or below
the threshold and every earlier index is strictly above it, the scan returns
the year at index `i`. -/
lemma fcy_eq_some_first : ∀ (ys : List Int) (vs : List ℚ) (thr : ℚ) (i : Nat)
    (hy : i < ys.length) (hv : i < vs.length),
    vs.get ⟨i, hv⟩ ≤ thr →
    (∀ j (hj : j < i), thr < vs.get ⟨j, hj.trans hv⟩) →
    firstCrossingYear ys vs thr = some (ys.get ⟨i, hy⟩)
  | [], _, thr, i, hy, _, _, _ => absurd hy (Nat.not_lt_zero i)
  | _ :: _, [], thr, i, _, hv, _, _ => absurd hv (Nat.not_lt_zero i)
  | y :: ys, v :: vs, thr, 0, hy, hv, hc, _ => by
      have hc' : v ≤ thr := hc
      simp only [firstCrossingYear, if_pos hc']
      rfl
  | y :: ys, v :: vs, thr, i + 1, hy, hv, hc, hb => by
      have h0 : thr < v := hb 0 (Nat.succ_pos i)
      simp only [firstCrossingYear, if_neg (not_le.mpr h0)]
      exact fcy_eq_some_first ys vs thr i (Nat.lt_of_succ_lt_succ hy)
        (Nat.lt_of_succ_lt_succ hv) hc
        (fun j hj => hb (j + 1) (Nat.succ_lt_succ hj))

lemma yearsOf_length (cfg : Config) : (yearsOf cfg).length = cfg.horizon + 1 := by
  rw [yearsOf, List.length_map, List.length_range]

lemma totalSeries_length (cfg : Config) :
    (totalSeries cfg).length = cfg.horizon + 1 := by
  rw [totalSeries, List.length_map, List.length_range]

lemma yearsOf_get (cfg : Config) (t : Nat) (ht : t < (yearsOf cfg).length) :
    (yearsOf cfg).get ⟨t, ht⟩ = cfg.start_year + t := by
  rw [List.get_eq_getElem]
  simp only [yearsOf, List.getElem_map, List.getElem_range]

lemma totalSeries_get (cfg : Config) (t : Nat) (ht : t < (totalSeries cfg).length) :
    (totalSeries cfg).get ⟨t, ht⟩ = totalAt cfg t := by
  rw [List.get_eq_getElem]
  simp only [totalSeries, List.getElem_map, List.getElem_range]

/-- With `threshold_fraction = 1` the scan already matches at step 0, since
`total[0] ≤ 1 * total[0]`. -/
lemma fcy_one_mul (cfg : Config) :
    firstCrossingYear (yearsOf cfg) (totalSeries cfg) (1 * totalAt cfg 0) =
      some cfg.start_year := by
  have hy : 0 < (yearsOf cfg).length := by
    rw [yearsOf_length]; exact Nat.succ_pos _
  have hv : 0 < (totalSeries cfg).length := by
    rw [totalSeries_length]; exact Nat.succ_pos _
  have h := fcy_eq_some_first (yearsOf cfg) (totalSeries cfg) (1 * totalAt cfg 0)
    0 hy hv (by rw [totalSeries_get, one_mul])
    (fun j hj => absurd hj (Nat.not_lt_zero j))
  rw [h, yearsOf_get]
  norm_num

/-- With all three flow knobs at zero, one step is the identity on
non-negative stocks. -/
lemma stepV03_zero_flow (cfg : Config) (y : Int) (F_int F_deg : ℚ)
    (hD : cfg.D_base = 0) (hf : cfg.fire_base = 0) (hρ : cfg.rho_recovery = 0)
    (hFi : 0 ≤ F_int) (hFd : 0 ≤ F_deg) :
    stepV03 cfg y F_int F_deg = (F_int, F_deg, F_int + F_deg) := by
  have hDh : D_humanOf cfg y = 0 := by simp [D_humanOf, hD]
  have hcd : convertDeg cfg y F_deg = 0 := by
    simp only [convertDeg, hDh, zero_mul]
    exact min_eq_right hFd
  have hci : convertInt cfg y F_int F_deg = 0 := by
    simp only [convertInt, hDh, hcd, sub_zero, max_self]
    exact min_eq_right hFi
  have hfp : firePressure cfg y F_int F_deg = 0 := by simp [firePressure, hf]
  have hdg : degradeOf cfg y F_int F_deg = 0 := by
    simp only [degradeOf, hci, hfp, sub_zero, max_self]
    simp [min_eq_right hFi]
  have hrc : recoverOf cfg y F_deg = 0 := by
    simp only [recoverOf, hcd, hρ, sub_zero, zero_mul]
    simp [min_eq_right hFd]
  have hni : nextIntRaw cfg y F_int F_deg = F_int := by
    simp [nextIntRaw, hci, hdg, hrc]
  have hnd : nextDegRaw cfg y F_int F_deg = F_deg := by
    simp [nextDegRaw, hcd, hdg, hrc]
  simp only [stepV03, hni, hnd]
  rw [max_eq_left hFi, max_eq_left hFd, max_eq_left (add_nonneg hFi hFd)]

/-- One step of the C7 scenario: with no fire, no recovery and an empty
degraded stock, a step removes exactly `D_base = 81240` from intact as long
as the intact stock can cover the demand. -/
lemma stepC7 (y : Int) (V : ℚ) (hV : 81240 ≤ V) :
    stepV03 cfgC7 y V 0 = (V - 81240, 0, V - 81240) := by
  have hD : D_humanOf cfgC7 y = 81240 := by norm_num [D_humanOf, cfgC7]
  have hcd : convertDeg cfgC7 y 0 = 0 := by
    rw [convertDeg, hD]
    norm_num [cfgC7, min_def]
  have hci : convertInt cfgC7 y V 0 = 81240 := by
    simp only [convertInt, hcd, hD, sub_zero]
    rw [show max (81240:ℚ) 0 = 81240 from by norm_num]
    exact min_eq_right hV
  have hfp : firePressure cfgC7 y V 0 = 0 := by simp [firePressure, cfgC7]
  have hdg : degradeOf cfgC7 y V 0 = 0 := by
    simp only [degradeOf, hci, hfp, max_self]
    rw [min_eq_right (by linarith : (0:ℚ) ≤ V - 81240), max_self]
  have hrc : recoverOf cfgC7 y 0 = 0 := by
    rw [recoverOf, hcd]
    norm_num [cfgC7, min_def, max_def]
  have hni : nextIntRaw cfgC7 y V 0 = V - 81240 := by
    simp [nextIntRaw, hci, hdg, hrc]
  have hnd : nextDegRaw cfgC7 y V 0 = 0 := by
    simp [nextDegRaw, hcd, hdg, hrc]
  simp only [stepV03, hni, hnd, add_zero]
  rw [max_eq_left (by linarith : (0:ℚ) ≤ V - 81240), max_self]

/-- Closed form of the C7 trajectory over the whole 200-step horizon:
`state[t] = (39011117 - 81240 t, 0, 39011117 - 81240 t)`. -/
lemma cfgC7_state : ∀ t, t ≤ 200 →
    stateAt cfgC7 t = (39011117 - 81240 * (t:ℚ), 0, 39011117 - 81240 * (t:ℚ))
  | 0, _ => by norm_num [stateAt, cfgC7]
  | t + 1, ht => by
      have ht' : t ≤ 200 := Nat.le_of_succ_le ht
      have ih := cfgC7_state t ht'
      have htq : (t:ℚ) ≤ 199 := by
        have h9 : t ≤ 199 := by omega
        exact_mod_cast h9
      have hV : (81240:ℚ) ≤ 39011117 - 81240 * (t:ℚ) := by linarith
      have hI : intactAt cfgC7 t = 39011117 - 81240 * (t:ℚ) := by rw [intactAt, ih]
      have hD2 : degradedAt cfgC7 t = 0 := by rw [degradedAt, ih]
      rw [stateAt_succ, hI, hD2, stepC7 _ _ hV]
      rw [show (((t + 1 : Nat)) : ℚ) = (t:ℚ) + 1 from by push_cast; ring]
      simp only [Prod.mk.injEq]
      exact ⟨by ring, by trivial, by ring⟩

/-! ## The claims -/

/-- C1: for every configuration with non-negative initial stocks and
non-negative parameters, every step of the trajectory produced by the engine
has `intact[t] ≥ 0` and `degraded[t] ≥ 0`. -/
theorem claim_C1_nonneg (cfg : Config)
    (hFi : 0 ≤ cfg.F0_intact) (hFd : 0 ≤ cfg.F0_degraded)
    (hD : 0 ≤ cfg.D_base) (hE : 0 ≤ cfg.enforcement_factor)
    (hP : 0 ≤ cfg.post_accord_mult) (hw : 0 ≤ cfg.w_degraded_target)
    (hf : 0 ≤ cfg.fire_base) (hc : 0 ≤ cfg.climate_stress)
    (ha : 0 ≤ cfg.alpha_vuln) (he : 0 ≤ cfg.elnino_mult)
    (hr : 0 ≤ cfg.rho_recovery) :
    (∀ t, 0 ≤ intactAt cfg t ∧ 0 ≤ degradedAt cfg t) ∧
    (∀ q ∈ (simulateV03 cfg).2.1, 0 ≤ q) ∧
    (∀ q ∈ (simulateV03 cfg).2.2.1, 0 ≤ q) := by
  refine ⟨fun t => ⟨intactAt_nonneg cfg hFi t, degradedAt_nonneg cfg hFd t⟩, ?_, ?_⟩
  · intro q hq
    obtain ⟨t, -, rfl⟩ := List.mem_map.mp hq
    exact intactAt_nonneg cfg hFi t
  · intro q hq
    obtain ⟨t, -, rfl⟩ := List.mem_map.mp hq
    exact degradedAt_nonneg cfg hFd t

/-- Witness for C1 at a concrete configuration. -/
theorem claim_C1_nonneg_w :
    0 ≤ intactAt cfgSmall 1 ∧ 0 ≤ degradedAt cfgSmall 1 :=
  (claim_C1_nonneg cfgSmall (by norm_num [cfgSmall]) (by norm_num [cfgSmall])
    (by norm_num [cfgSmall]) (by norm_num [cfgSmall]) (by norm_num [cfgSmall])
    (by norm_num [cfgSmall]) (by norm_num [cfgSmall]) (by norm_num [cfgSmall])
    (by norm_num [cfgSmall]) (by norm_num [cfgSmall]) (by norm_num [cfgSmall])).1 1

/-- C2, refuted: there is NO valid configuration (non-negative stocks and
parameters), with positive recovery or not, whose total series ever rises from
one step to the next; recovery only moves mass between the stocks, so the
conversion flows are the only terms left in the total. -/
theorem claim_C2_counterexample :
    ¬ ∃ cfg : Config, 0 ≤ cfg.F0_intact ∧ 0 ≤ cfg.F0_degraded ∧
      0 ≤ cfg.D_base ∧ 0 ≤ cfg.enforcement_factor ∧ 0 ≤ cfg.post_accord_mult ∧
      0 ≤ cfg.w_degraded_target ∧ 0 ≤ cfg.fire_base ∧ 0 ≤ cfg.climate_stress ∧
      0 ≤ cfg.alpha_vuln ∧ 0 ≤ cfg.elnino_mult ∧ 0 < cfg.rho_recovery ∧
      ∃ t, totalAt cfg t < totalAt cfg (t + 1) := by
  rintro ⟨cfg, hFi, hFd, hD, hE, hP, hw, -, -, -, -, -, t, hlt⟩
  exact absurd (totalAt_succ_le cfg hFi hFd (D_human_w_nonneg cfg hD hE hP hw) t)
    (not_le.mpr hlt)

/-- C2, amended: for every valid configuration, even with
`recovery_rate > 0`, the total series is non-increasing at every step —
recovery never causes a local increase in total area. -/
theorem claim_C2_total_nonincreasing (cfg : Config)
    (hFi : 0 ≤ cfg.F0_intact) (hFd : 0 ≤ cfg.F0_degraded)
    (hD : 0 ≤ cfg.D_base) (hE : 0 ≤ cfg.enforcement_factor)
    (hP : 0 ≤ cfg.post_accord_mult) (hw : 0 ≤ cfg.w_degraded_target)
    (hρ : 0 < cfg.rho_recovery) (t : Nat) :
    totalAt cfg (t + 1) ≤ totalAt cfg t :=
  totalAt_succ_le cfg hFi hFd (D_human_w_nonneg cfg hD hE hP hw) t

/-- Witness for the amended C2 at a concrete configuration with positive
recovery. -/
theorem claim_C2_total_nonincreasing_w :
    totalAt cfgSmall 2 ≤ totalAt cfgSmall 1 :=
  claim_C2_total_nonincreasing cfgSmall (by norm_num [cfgSmall])
    (by norm_num [cfgSmall]) (by norm_num [cfgSmall]) (by norm_num [cfgSmall])
    (by norm_num [cfgSmall]) (by norm_num [cfgSmall]) (by norm_num [cfgSmall]) 1

/-- C3, refuted: on the concrete strictly decreasing trajectory of `cfgC3`
(with positive human demand at step 0), `first_crossing_year` at
`threshold_fraction = 1.0` returns the year of step 0 (`start_year`), not the
year of step 1 as the claim states. -/
theorem claim_C3_counterexample :
    totalAt cfgC3 1 < totalAt cfgC3 0 ∧ totalAt cfgC3 2 < totalAt cfgC3 1 ∧
    0 < D_humanOf cfgC3 cfgC3.start_year +
        firePressure cfgC3 cfgC3.start_year (intactAt cfgC3 0)
          (degradedAt cfgC3 0) ∧
    firstCrossingYear (yearsOf cfgC3) (totalSeries cfgC3) (1 * totalAt cfgC3 0) =
      some cfgC3.start_year ∧
    cfgC3.start_year ≠ cfgC3.start_year + 1 := by
  have e1 : stateAt cfgC3 1 = (38929877, 0, 38929877) := by
    rw [show (1:Nat) = 0 + 1 from rfl, stateAt_succ]
    norm_num [intactAt, degradedAt, stateAt, stepV03, nextIntRaw, nextDegRaw,
      convertInt, convertDeg, D_humanOf, firePressure, degradeOf, recoverOf,
      ELNINO_YEARS, cfgC3, cfgC7, min_def, max_def]
  have e2 : stateAt cfgC3 2 = (38848637, 0, 38848637) := by
    rw [show (2:Nat) = 1 + 1 from rfl, stateAt_succ, intactAt, degradedAt, e1]
    norm_num [stepV03, nextIntRaw, nextDegRaw, convertInt, convertDeg,
      D_humanOf, firePressure, degradeOf, recoverOf, ELNINO_YEARS, cfgC3,
      cfgC7, min_def, max_def]
  refine ⟨?_, ?_, ?_, fcy_one_mul cfgC3, by norm_num⟩
  · rw [totalAt, totalAt, e1]
    norm_num [stateAt, cfgC3, cfgC7]
  · rw [totalAt, totalAt, e1, e2]
    norm_num
  · rw [intactAt, degradedAt]
    norm_num [D_humanOf, firePressure, stateAt, ELNINO_YEARS, cfgC3, cfgC7,
      min_def, max_def]

/-- C3, amended: `first_crossing` with `threshold_fraction = 1.0` returns the
year of step 0 (`start_year`) on every trajectory, since the initial total
already satisfies `total ≤ 1.0 * initial_total`. -/
theorem claim_C3_full_fraction_returns_step0 (cfg : Config) :
    firstCrossingYear (yearsOf cfg) (totalSeries cfg) (1 * totalAt cfg 0) =
      some cfg.start_year :=
  fcy_one_mul cfg

/-- C4: the code performs no construction-time validation. `cfgBadRho` has
`recovery_rate = 2`, outside the documented range `[0, 1)`, yet `simulate_v03`
(a total function with no error path) executes its steps and returns a full
trajectory; at step 1 the invalid rate has visibly acted (the whole degraded
stock "recovered" in one step), contradicting rejection before any step. -/
theorem claim_C4_no_validation :
    ¬ ((0:ℚ) ≤ cfgBadRho.rho_recovery ∧ cfgBadRho.rho_recovery < 1) ∧
    (simulateV03 cfgBadRho).1.length = cfgBadRho.horizon + 1 ∧
    (simulateV03 cfgBadRho).2.2.2.length = cfgBadRho.horizon + 1 ∧
    stateAt cfgBadRho 1 = (200, 0, 200) := by
  refine ⟨by norm_num [cfgBadRho], yearsOf_length cfgBadRho,
    totalSeries_length cfgBadRho, ?_⟩
  rw [show (1:Nat) = 0 + 1 from rfl, stateAt_succ]
  norm_num [intactAt, degradedAt, stateAt, stepV03, nextIntRaw, nextDegRaw,
    convertInt, convertDeg, D_humanOf, firePressure, degradeOf, recoverOf,
    ELNINO_YEARS, cfgBadRho, min_def, max_def]

/-- C8: `first_crossing_year` on the trajectory scans the total series in
chronological order: it returns the calendar year `start_year + t` of the
first step `t` with `total[t] ≤ f * total[0]`, and returns the sentinel
`none` exactly when no step within the horizon satisfies the test. -/
theorem claim_C8_scan_contract (cfg : Config) (f : ℚ) :
    (∀ t, t ≤ cfg.horizon → totalAt cfg t ≤ f * totalAt cfg 0 →
      (∀ j, j < t → f * totalAt cfg 0 < totalAt cfg j) →
      firstCrossingYear (yearsOf cfg) (totalSeries cfg) (f * totalAt cfg 0) =
        some (cfg.start_year + (t : Int))) ∧
    (firstCrossingYear (yearsOf cfg) (totalSeries cfg) (f * totalAt cfg 0) =
        none ↔
      ∀ t, t ≤ cfg.horizon → f * totalAt cfg 0 < totalAt cfg t) := by
  constructor
  · intro t ht hc hb
    have hy : t < (yearsOf cfg).length := by rw [yearsOf_length]; omega
    have hv : t < (totalSeries cfg).length := by rw [totalSeries_length]; omega
    have h := fcy_eq_some_first (yearsOf cfg) (totalSeries cfg)
      (f * totalAt cfg 0) t hy hv (by rw [totalSeries_get]; exact hc)
      (fun j hj => by rw [totalSeries_get]; exact hb j hj)
    rw [h, yearsOf_get]
  · rw [fcy_eq_none_iff]
    constructor
    · intro hall t ht
      have hy : t < (yearsOf cfg).length := by rw [yearsOf_length]; omega
      have hv : t < (totalSeries cfg).length := by rw [totalSeries_length]; omega
      have h := hall t hy hv
      rwa [totalSeries_get] at h
    · intro hall i hy hv
      rw [totalSeries_get]
      refine hall i ?_
      rw [totalSeries_length] at hv
      omega

/-- Witness for C8: on `cfgScan` the 75% threshold is crossed at step 1, so
the scan returns `start_year + 1`. -/
theorem claim_C8_scan_contract_w :
    firstCrossingYear (yearsOf cfgScan) (totalSeries cfgScan)
      ((3/4) * totalAt cfgScan 0) = some (cfgScan.start_year + ((1:Nat) : Int)) := by
  have h0 : totalAt cfgScan 0 = 100 := by norm_num [totalAt, stateAt, cfgScan]
  have h1 : totalAt cfgScan 1 = 70 := by
    rw [show (1:Nat) = 0 + 1 from rfl, totalAt_succ]
    norm_num [intactAt, degradedAt, stateAt, nextIntRaw, nextDegRaw, convertInt,
      convertDeg, D_humanOf, firePressure, degradeOf, recoverOf, ELNINO_YEARS,
      cfgScan, min_def, max_def]
  refine (claim_C8_scan_contract cfgScan (3/4)).1 1 (by norm_num [cfgScan]) ?_ ?_
  · rw [h0, h1]; norm_num
  · intro j hj
    interval_cases j
    rw [h0]; norm_num

/-- C5: with `recovery_rate = 0` and non-negative pressures (and non-negative
initial stocks, as the data model requires), the total series is
non-increasing at every step. -/
theorem claim_C5_total_nonincreasing_no_recovery (cfg : Config)
    (hρ : cfg.rho_recovery = 0)
    (hFi : 0 ≤ cfg.F0_intact) (hFd : 0 ≤ cfg.F0_degraded)
    (hD : 0 ≤ cfg.D_base) (hE : 0 ≤ cfg.enforcement_factor)
    (hP : 0 ≤ cfg.post_accord_mult) (hw : 0 ≤ cfg.w_degraded_target)
    (hf : 0 ≤ cfg.fire_base) (hc : 0 ≤ cfg.climate_stress)
    (ha : 0 ≤ cfg.alpha_vuln) (he : 0 ≤ cfg.elnino_mult) (t : Nat) :
    totalAt cfg (t + 1) ≤ totalAt cfg t :=
  totalAt_succ_le cfg hFi hFd (D_human_w_nonneg cfg hD hE hP hw) t

/-- Witness for C5 at a concrete configuration with zero recovery. -/
theorem claim_C5_total_nonincreasing_no_recovery_w :
    totalAt cfgScan 1 ≤ totalAt cfgScan 0 :=
  claim_C5_total_nonincreasing_no_recovery cfgScan (by norm_num [cfgScan])
    (by norm_num [cfgScan]) (by norm_num [cfgScan]) (by norm_num [cfgScan])
    (by norm_num [cfgScan]) (by norm_num [cfgScan]) (by norm_num [cfgScan])
    (by norm_num [cfgScan]) (by norm_num [cfgScan]) (by norm_num [cfgScan])
    (by norm_num [cfgScan]) 0

/-- C6: with `degraded_targeting_weight = 1` and a degraded stock that can
absorb the whole effective human demand, no intact land is converted. -/
theorem claim_C6_conversion_priority (cfg : Config) (y : Int) (F_int F_deg : ℚ)
    (hw : cfg.w_degraded_target = 1) (hFi : 0 ≤ F_int)
    (hD : D_humanOf cfg y ≤ F_deg) :
    convertInt cfg y F_int F_deg = 0 := by
  have hcd : convertDeg cfg y F_deg = D_humanOf cfg y := by
    simp only [convertDeg, hw, mul_one]
    exact min_eq_right hD
  simp only [convertInt, hcd, sub_self, max_self]
  exact min_eq_right hFi

/-- Witness for C6 at a concrete step. -/
theorem claim_C6_conversion_priority_w :
    convertInt cfgPriority 2000 5 10 = 0 :=
  claim_C6_conversion_priority cfgPriority 2000 5 10 (by norm_num [cfgPriority])
    (by norm_num) (by norm_num [D_humanOf, cfgPriority])

/-- C9: with `base_human_pressure = 0`, `fire_base_pressure = 0` and
`recovery_rate = 0`, the trajectory is constant at the (non-negative) initial
state for every step. -/
theorem claim_C9_zero_flow_constant (cfg : Config)
    (hD : cfg.D_base = 0) (hf : cfg.fire_base = 0) (hρ : cfg.rho_recovery = 0)
    (hFi : 0 ≤ cfg.F0_intact) (hFd : 0 ≤ cfg.F0_degraded) :
    ∀ t, intactAt cfg t = cfg.F0_intact ∧ degradedAt cfg t = cfg.F0_degraded ∧
      totalAt cfg t = cfg.F0_intact + cfg.F0_degraded
  | 0 => ⟨rfl, rfl, rfl⟩
  | t + 1 => by
      obtain ⟨hI, hDt, -⟩ := claim_C9_zero_flow_constant cfg hD hf hρ hFi hFd t
      have hs : stateAt cfg (t + 1) =
          (cfg.F0_intact, cfg.F0_degraded, cfg.F0_intact + cfg.F0_degraded) := by
        rw [stateAt_succ, hI, hDt]
        exact stepV03_zero_flow cfg _ _ _ hD hf hρ hFi hFd
      exact ⟨by rw [intactAt, hs], by rw [degradedAt, hs], by rw [totalAt, hs]⟩

/-- Witness for C9 at a concrete zero-flow configuration. -/
theorem claim_C9_zero_flow_constant_w :
    intactAt cfgZero 3 = cfgZero.F0_intact ∧
    degradedAt cfgZero 3 = cfgZero.F0_degraded ∧
    totalAt cfgZero 3 = cfgZero.F0_intact + cfgZero.F0_degraded :=
  claim_C9_zero_flow_constant cfgZero (by norm_num [cfgZero])
    (by norm_num [cfgZero]) (by norm_num [cfgZero]) (by norm_num [cfgZero])
    (by norm_num [cfgZero]) 3

/-- C10: on non-negative input stocks the unclamped next-state values are
already non-negative, the final clamps never alter a value, and the recorded
total equals `intact[t] + degraded[t]` at every step. -/
theorem claim_C10_clamps_never_alter (cfg : Config) (y : Int) (F_int F_deg : ℚ)
    (hFi : 0 ≤ F_int) (hFd : 0 ≤ F_deg) :
    0 ≤ nextIntRaw cfg y F_int F_deg ∧ 0 ≤ nextDegRaw cfg y F_int F_deg ∧
    stepV03 cfg y F_int F_deg =
      (nextIntRaw cfg y F_int F_deg, nextDegRaw cfg y F_int F_deg,
       nextIntRaw cfg y F_int F_deg + nextDegRaw cfg y F_int F_deg) ∧
    ∀ t, totalAt cfg t = intactAt cfg t + degradedAt cfg t :=
  ⟨nextIntRaw_nonneg cfg y F_int F_deg, nextDegRaw_nonneg cfg y F_int F_deg,
   stepV03_eq cfg y F_int F_deg, totalAt_eq cfg⟩

/-- C7: the concrete scenario. At step 1 the state is
`(38929877, 0, 38929877)`; the 80%-remaining threshold `31208893.6` equals
`0.8 * initial_total`; the scan crosses it at
`start_year + ceil((39011117 - 31208893.6)/81240) = 2097`; and the
closed-form `crossing_year` of V0.1 agrees. -/
theorem claim_C7_concrete_scenario :
    intactAt cfgC7 1 = 38929877 ∧ degradedAt cfgC7 1 = 0 ∧
    totalAt cfgC7 1 = 38929877 ∧
    (312088936/10 : ℚ) = (8/10) * (cfgC7.F0_intact + cfgC7.F0_degraded) ∧
    firstCrossingYear (yearsOf cfgC7) (totalSeries cfgC7) (312088936/10) =
      some (cfgC7.start_year + ⌈((39011117:ℚ) - 312088936/10) / 81240⌉) ∧
    cfgC7.start_year + ⌈((39011117:ℚ) - 312088936/10) / 81240⌉ = 2097 ∧
    crossingYear cfgC7.start_year 39011117 81240 (8/10) = 2097 := by
  have hceil : (⌈((39011117:ℚ) - 312088936/10) / 81240⌉ : Int) = 97 := by
    rw [Int.ceil_eq_iff]
    norm_num
  have h1 := cfgC7_state 1 (by norm_num)
  have hT : ∀ t, t ≤ 200 → totalAt cfgC7 t = 39011117 - 81240 * (t:ℚ) :=
    fun t ht => by rw [totalAt, cfgC7_state t ht]
  refine ⟨by rw [intactAt, h1]; norm_num, by rw [degradedAt, h1],
    by rw [totalAt, h1]; norm_num, by norm_num [cfgC7], ?_, ?_, ?_⟩
  · have hy97 : 97 < (yearsOf cfgC7).length := by
      rw [yearsOf_length]; norm_num [cfgC7]
    have hv97 : 97 < (totalSeries cfgC7).length := by
      rw [totalSeries_length]; norm_num [cfgC7]
    have hc : (totalSeries cfgC7).get ⟨97, hv97⟩ ≤ 312088936/10 := by
      rw [totalSeries_get, hT 97 (by norm_num)]
      norm_num
    have hb : ∀ j (hj : j < 97),
        (312088936/10 : ℚ) < (totalSeries cfgC7).get ⟨j, hj.trans hv97⟩ := by
      intro j hj
      rw [totalSeries_get, hT j (by omega)]
      have hjq : (j:ℚ) ≤ 96 := by
        have h9 : j ≤ 96 := by omega
        exact_mod_cast h9
      linarith
    have h := fcy_eq_some_first (yearsOf cfgC7) (totalSeries cfgC7)
      (312088936/10) 97 hy97 hv97 hc hb
    rw [h, yearsOf_get, hceil]
    norm_num
  · rw [hceil]
    norm_num [cfgC7]
  · rw [crossingYear]
    rw [show ((39011117:ℚ) - (8/10) * 39011117) = 39011117 - 312088936/10 from
      by norm_num]
    rw [hceil]
    norm_num [cfgC7]

/-- Witness for C10 at a concrete step and trajectory index. -/
theorem claim_C10_clamps_never_alter_w :
    0 ≤ nextIntRaw cfgSmall 2000 100 50 ∧
    totalAt cfgSmall 1 = intactAt cfgSmall 1 + degradedAt cfgSmall 1 :=
  ⟨(claim_C10_clamps_never_alter cfgSmall 2000 100 50 (by norm_num)
      (by norm_num)).1,
   (claim_C10_clamps_never_alter cfgSmall 2000 100 50 (by norm_num)
      (by norm_num)).2.2.2 1⟩

end Amazon
